import Mathlib

/-!
Shallow embedding of the wled_backup tool (src/main.rs) and proofs about it.

The tool discovers WLED controllers via mDNS, deduplicates them by hostname,
and for each device fetches /cfg.json and /presets.json over HTTP and writes
them to the output directory under a stem taken from the config document.

Modelling conventions:
  - Rust strings are Lean `String`; raw HTTP bodies and file contents are
    `List Nat` byte sequences (each entry is one byte value).
  - reqwest's blocking GET (including reading the body) is a function from a
    URL to either a transport error or a complete response; the HTTP status
    is carried in the response, and `Response::text` decodes the body as
    UTF-8 with U+FFFD replacement for invalid sequences (reqwest's behaviour
    for a response without a charset header).
  - The filesystem is a write log, newest entry first; `File::create` plus a
    full write of the content is one `fsWrite`.  Whether creating/writing a
    given path fails is an oracle carried by the `World`.
  - serde_json parsing is embedded as an executable recursive-descent parser
    over the decoded characters; numbers are kept as their lexemes since no
    code under verification inspects numeric values.
-/

/-- The UTF-8 encoding of one Unicode scalar value, as Rust
`str::as_bytes` produces for one `char`. -/
def utf8EncodeChar (c : Nat) : List Nat :=
  if c < 0x80 then [c]
  else if c < 0x800 then [0xC0 + c / 64, 0x80 + c % 64]
  else if c < 0x10000 then [0xE0 + c / 4096, 0x80 + c / 64 % 64, 0x80 + c % 64]
  else [0xF0 + c / 262144, 0x80 + c / 4096 % 64, 0x80 + c / 64 % 64, 0x80 + c % 64]

/-- The UTF-8 bytes of a character sequence (Rust `String::as_bytes`). -/
def bytesOfChars : List Char → List Nat
  | [] => []
  | c :: cs => utf8EncodeChar c.toNat ++ bytesOfChars cs

/-- The UTF-8 bytes of a string (Rust `String::as_bytes`). -/
def strBytes (s : String) : List Nat :=
  bytesOfChars s.data

/-- The U+FFFD replacement character emitted for invalid UTF-8 input. -/
def replChar : Char := Char.ofNat 0xFFFD

/-- Lossy UTF-8 decoding of a byte sequence: invalid sequences become
U+FFFD, resuming at the offending byte (WHATWG decoding as performed by
encoding_rs, which reqwest `Response::text` uses for a response without a
charset header). -/
def utf8DecodeLossy : List Nat → List Char
  | [] => []
  | b0 :: rest =>
    if b0 < 0x80 then Char.ofNat b0 :: utf8DecodeLossy rest
    else if b0 < 0xC2 then replChar :: utf8DecodeLossy rest
    else if b0 < 0xE0 then
      match rest with
      | [] => [replChar]
      | b1 :: rest1 =>
        if 0x80 ≤ b1 ∧ b1 < 0xC0 then
          Char.ofNat ((b0 - 0xC0) * 64 + (b1 - 0x80)) :: utf8DecodeLossy rest1
        else replChar :: utf8DecodeLossy (b1 :: rest1)
    else if b0 < 0xF0 then
      match rest with
      | [] => [replChar]
      | b1 :: rest1 =>
        if (if b0 = 0xE0 then 0xA0 else 0x80) ≤ b1 ∧ b1 ≤ (if b0 = 0xED then 0x9F else 0xBF) then
          match rest1 with
          | [] => [replChar, replChar]
          | b2 :: rest2 =>
            if 0x80 ≤ b2 ∧ b2 < 0xC0 then
              Char.ofNat ((b0 - 0xE0) * 4096 + (b1 - 0x80) * 64 + (b2 - 0x80)) ::
                utf8DecodeLossy rest2
            else replChar :: utf8DecodeLossy (b2 :: rest2)
        else replChar :: utf8DecodeLossy (b1 :: rest1)
    else if b0 < 0xF5 then
      match rest with
      | [] => [replChar]
      | b1 :: rest1 =>
        if (if b0 = 0xF0 then 0x90 else 0x80) ≤ b1 ∧ b1 ≤ (if b0 = 0xF4 then 0x8F else 0xBF) then
          match rest1 with
          | [] => [replChar, replChar]
          | b2 :: rest2 =>
            if 0x80 ≤ b2 ∧ b2 < 0xC0 then
              match rest2 with
              | [] => [replChar, replChar, replChar]
              | b3 :: rest3 =>
                if 0x80 ≤ b3 ∧ b3 < 0xC0 then
                  Char.ofNat ((b0 - 0xF0) * 262144 + (b1 - 0x80) * 4096 +
                      (b2 - 0x80) * 64 + (b3 - 0x80)) :: utf8DecodeLossy rest3
                else replChar :: utf8DecodeLossy (b3 :: rest3)
            else replChar :: utf8DecodeLossy (b2 :: rest2)
        else replChar :: utf8DecodeLossy (b1 :: rest1)
    else replChar :: utf8DecodeLossy rest

/-- Whether a byte sequence is well-formed UTF-8 (same sequence ranges as
the decoder, but strict). -/
def validUtf8 : List Nat → Bool
  | [] => true
  | b0 :: rest =>
    if b0 < 0x80 then validUtf8 rest
    else if b0 < 0xC2 then false
    else if b0 < 0xE0 then
      match rest with
      | [] => false
      | b1 :: rest1 =>
        if 0x80 ≤ b1 ∧ b1 < 0xC0 then validUtf8 rest1 else false
    else if b0 < 0xF0 then
      match rest with
      | [] => false
      | b1 :: rest1 =>
        if (if b0 = 0xE0 then 0xA0 else 0x80) ≤ b1 ∧ b1 ≤ (if b0 = 0xED then 0x9F else 0xBF) then
          match rest1 with
          | [] => false
          | b2 :: rest2 =>
            if 0x80 ≤ b2 ∧ b2 < 0xC0 then validUtf8 rest2 else false
        else false
    else if b0 < 0xF5 then
      match rest with
      | [] => false
      | b1 :: rest1 =>
        if (if b0 = 0xF0 then 0x90 else 0x80) ≤ b1 ∧ b1 ≤ (if b0 = 0xF4 then 0x8F else 0xBF) then
          match rest1 with
          | [] => false
          | b2 :: rest2 =>
            if 0x80 ≤ b2 ∧ b2 < 0xC0 then
              match rest2 with
              | [] => false
              | b3 :: rest3 =>
                if 0x80 ≤ b3 ∧ b3 < 0xC0 then validUtf8 rest3 else false
            else false
        else false
    else false

/-- Whether a character is whitespace for Rust `str::trim`
(the Unicode White_Space property). -/
def rustIsWhitespace (c : Char) : Bool :=
  (0x09 ≤ c.toNat && c.toNat ≤ 0x0D) || c.toNat = 0x20 || c.toNat = 0x85 ||
    c.toNat = 0xA0 || c.toNat = 0x1680 || (0x2000 ≤ c.toNat && c.toNat ≤ 0x200A) ||
    c.toNat = 0x2028 || c.toNat = 0x2029 || c.toNat = 0x202F || c.toNat = 0x205F ||
    c.toNat = 0x3000

/-- Rust `str::trim`: remove leading and trailing White_Space characters. -/
def rustTrim (s : String) : String :=
  ⟨((s.data.dropWhile rustIsWhitespace).reverse.dropWhile rustIsWhitespace).reverse⟩

/-- Embedding of `serde_json::Value`.  Numbers are kept as their source
lexeme: no code under verification reads a numeric value, only whether the
value is a string. -/
inductive Value where
  | null : Value
  | bool (b : Bool) : Value
  | num (lexeme : String) : Value
  | str (s : String) : Value
  | arr (elems : List Value) : Value
  | obj (entries : List (String × Value)) : Value

/-- Embedding of `serde_json::Value::get` with a string index: a lookup on an object,
`None` on every other variant. -/
def Value.get (v : Value) (key : String) : Option Value :=
  match v with
  | .obj entries => entries.lookup key
  | _ => none

/-- Embedding of `serde_json::Value::as_str`: `Some` exactly on the string variant. -/
def Value.as_str : Value → Option String
  | .str s => some s
  | _ => none

/-- Embedding of `get_hostname_from_cfg` from src/main.rs: extract `id.name` from the
parsed configuration document, with a distinct error message when `id` is
missing, when `name` is missing, when `name` is not a string, and when the
trimmed name is empty; the untrimmed name is returned. -/
def get_hostname_from_cfg (cfg_json : Value) : Except String String :=
  match cfg_json.get ("id") with
  | none => .error ("Missing \x27id\x27 field in cfg.json")
  | some idv =>
    match idv.get ("name") with
    | none => .error ("Missing \x27name\x27 field in cfg.json")
    | some namev =>
      match namev.as_str with
      | none => .error ("Expected \x27name\x27 to be a string in cfg.json")
      | some hostname =>
        if (rustTrim hostname).data.isEmpty then
          .error ("Hostname is empty or contains only whitespace")
        else
          .ok hostname

def skipWs : List Char → List Char
  | [] => []
  | c :: cs => if c = ' ' ∨ c = '\t' ∨ c = '\n' ∨ c = '\r' then skipWs cs else c :: cs

def hexDigitVal (c : Char) : Option Nat :=
  if '0' ≤ c ∧ c ≤ '9' then some (c.toNat - 48)
  else if 'a' ≤ c ∧ c ≤ 'f' then some (c.toNat - 87)
  else if 'A' ≤ c ∧ c ≤ 'F' then some (c.toNat - 55)
  else none

def hex4 (a b c d : Char) : Option Nat :=
  match hexDigitVal a, hexDigitVal b, hexDigitVal c, hexDigitVal d with
  | some x, some y, some z, some w => some (((x * 16 + y) * 16 + z) * 16 + w)
  | _, _, _, _ => none

def parseStringBody : List Char → List Char → Except String (String × List Char)
  | [], _ => .error ("EOF while parsing a string")
  | c :: rest, acc =>
    if c = '"' then .ok (⟨acc.reverse⟩, rest)
    else if c = '\\' then
      match rest with
      | [] => .error ("EOF while parsing an escape")
      | e :: rest1 =>
        if e = '"' then parseStringBody rest1 ('"' :: acc)
        else if e = '\\' then parseStringBody rest1 ('\\' :: acc)
        else if e = '/' then parseStringBody rest1 ('/' :: acc)
        else if e = 'b' then parseStringBody rest1 ('\x08' :: acc)
        else if e = 'f' then parseStringBody rest1 ('\x0C' :: acc)
        else if e = 'n' then parseStringBody rest1 ('\n' :: acc)
        else if e = 'r' then parseStringBody rest1 ('\r' :: acc)
        else if e = 't' then parseStringBody rest1 ('\t' :: acc)
        else if e = 'u' then
          match rest1 with
          | h1 :: h2 :: h3 :: h4 :: rest2 =>
            match hex4 h1 h2 h3 h4 with
            | none => .error ("invalid hex escape")
            | some n =>
              if n < 0xD800 ∨ 0xDFFF < n then parseStringBody rest2 (Char.ofNat n :: acc)
              else if n ≤ 0xDBFF then
                match rest2 with
                | '\\' :: 'u' :: g1 :: g2 :: g3 :: g4 :: rest3 =>
                  match hex4 g1 g2 g3 g4 with
                  | none => .error ("invalid hex escape")
                  | some m =>
                    if 0xDC00 ≤ m ∧ m ≤ 0xDFFF then
                      parseStringBody rest3
                        (Char.ofNat (0x10000 + (n - 0xD800) * 1024 + (m - 0xDC00)) :: acc)
                    else .error ("lone leading surrogate in hex escape")
                | _ => .error ("lone leading surrogate in hex escape")
              else .error ("lone trailing surrogate in hex escape")
          | _ => .error ("EOF in unicode escape")
        else .error ("invalid escape")
    else if c.toNat < 0x20 then .error ("control character in string")
    else parseStringBody rest (c :: acc)

def numFrac (acc : List Char) (cs : List Char) : Except String (List Char × List Char) :=
  match cs with
  | '.' :: r =>
    match r.span Char.isDigit with
    | ([], _) => .error ("invalid number")
    | (ds, r2) => .ok (acc ++ '.' :: ds, r2)
  | _ => .ok (acc, cs)

def numExp (acc : List Char) (cs : List Char) : Except String (List Char × List Char) :=
  match cs with
  | e :: r =>
    if e = 'e' ∨ e = 'E' then
      match (match r with
             | '+' :: rr => ((['+'] : List Char), rr)
             | '-' :: rr => ((['-'] : List Char), rr)
             | _ => (([] : List Char), r)) with
      | (sgn, r1) =>
        match r1.span Char.isDigit with
        | ([], _) => .error ("invalid number")
        | (ds, r2) => .ok (acc ++ e :: (sgn ++ ds), r2)
    else .ok (acc, cs)
  | [] => .ok (acc, cs)

def numFracExp (acc : List Char) (cs : List Char) : Except String (String × List Char) :=
  match numFrac acc cs with
  | .error e => .error e
  | .ok (acc2, cs2) =>
    match numExp acc2 cs2 with
    | .error e => .error e
    | .ok (acc3, cs3) => .ok (⟨acc3⟩, cs3)

def parseNumFrom (cs : List Char) : Except String (String × List Char) :=
  match (match cs with
         | '-' :: r => (((['-'] : List Char)), r)
         | _ => (([] : List Char), cs)) with
  | (sign, cs1) =>
    match cs1 with
    | [] => .error ("EOF while parsing a number")
    | d :: r =>
      if d = '0' then numFracExp (sign ++ ['0']) r
      else if d.isDigit then
        match (d :: r).span Char.isDigit with
        | (ds, r2) => numFracExp (sign ++ ds) r2
      else .error ("invalid number")

def objInsert (entries : List (String × Value)) (k : String) (v : Value) :
    List (String × Value) :=
  match entries with
  | [] => [(k, v)]
  | (k0, v0) :: rest => if k0 = k then (k0, v) :: rest else (k0, v0) :: objInsert rest k v

mutual

def parseVal (fuel : Nat) (cs : List Char) : Except String (Value × List Char) :=
  match fuel with
  | 0 => .error ("recursion limit exceeded")
  | fuel + 1 =>
    match skipWs cs with
    | [] => .error ("EOF while parsing a value")
    | c :: rest =>
      if c = 'n' then
        match rest with
        | 'u' :: 'l' :: 'l' :: r => .ok (Value.null, r)
        | _ => .error ("expected ident")
      else if c = 't' then
        match rest with
        | 'r' :: 'u' :: 'e' :: r => .ok (Value.bool true, r)
        | _ => .error ("expected ident")
      else if c = 'f' then
        match rest with
        | 'a' :: 'l' :: 's' :: 'e' :: r => .ok (Value.bool false, r)
        | _ => .error ("expected ident")
      else if c = '"' then
        match parseStringBody rest [] with
        | .error e => .error e
        | .ok (s, r) => .ok (Value.str s, r)
      else if c = '[' then
        match skipWs rest with
        | ']' :: r => .ok (Value.arr [], r)
        | other => parseArrRest fuel other []
      else if c = '\x7b' then
        match skipWs rest with
        | '\x7d' :: r => .ok (Value.obj [], r)
        | other => parseObjRest fuel other []
      else if c = '-' ∨ c.isDigit then
        match parseNumFrom (c :: rest) with
        | .error e => .error e
        | .ok (lex, r) => .ok (Value.num lex, r)
      else .error ("expected value")

def parseArrRest (fuel : Nat) (cs : List Char) (acc : List Value) :
    Except String (Value × List Char) :=
  match fuel with
  | 0 => .error ("recursion limit exceeded")
  | fuel + 1 =>
    match parseVal fuel cs with
    | .error e => .error e
    | .ok (v, cs1) =>
      match skipWs cs1 with
      | ',' :: r => parseArrRest fuel r (v :: acc)
      | ']' :: r => .ok (Value.arr (v :: acc).reverse, r)
      | _ => .error ("expected comma or closing bracket")

def parseObjRest (fuel : Nat) (cs : List Char) (acc : List (String × Value)) :
    Except String (Value × List Char) :=
  match fuel with
  | 0 => .error ("recursion limit exceeded")
  | fuel + 1 =>
    match skipWs cs with
    | '"' :: r =>
      match parseStringBody r [] with
      | .error e => .error e
      | .ok (k, cs1) =>
        match skipWs cs1 with
        | ':' :: cs2 =>
          match parseVal fuel cs2 with
          | .error e => .error e
          | .ok (v, cs3) =>
            match skipWs cs3 with
            | ',' :: r2 => parseObjRest fuel r2 (objInsert acc k v)
            | '\x7d' :: r2 => .ok (Value.obj (objInsert acc k v), r2)
            | _ => .error ("expected comma or closing brace")
        | _ => .error ("expected colon")
    | _ => .error ("key must be a string")

end

def from_str (s : String) : Except String Value :=
  match parseVal (2 * s.data.length + 8) s.data with
  | .error e => .error e
  | .ok (v, rest) =>
    match skipWs rest with
    | [] => .ok v
    | _ => .error ("trailing characters")

/-- An HTTP response as the blocking reqwest client exposes it: the status
code and the raw body bytes.  `backup_wled` never reads `status`. -/
structure Response where
  status : Nat
  body : List Nat
deriving DecidableEq

/-- The external collaborators of one run: `http` is `reqwest::blocking::get`
together with reading the full body (a transport error or a complete
response per URL), and `fsFail p` says whether creating/writing the file at
path `p` fails with an I/O error. -/
structure World where
  http : String → Except String Response
  fsFail : String → Bool

/-- Embedding of `reqwest::blocking::Response::text`: decode the body as UTF-8 with
U+FFFD replacement (the behaviour when the response carries no charset
header, as WLED responses do not). -/
def text (r : Response) : String :=
  ⟨utf8DecodeLossy r.body⟩

/-- The output directory as a write log of (path, content) entries, newest
first.  `File::create` truncates, so a new entry shadows an older one. -/
abbrev FS := List (String × List Nat)

/-- Create-and-write of one file (`File::create` + `write_all`/`copy`). -/
def fsWrite (fs : FS) (p : String) (content : List Nat) : FS :=
  (p, content) :: fs

/-- The current content of the file at path `p`, if it exists. -/
def fsRead (fs : FS) (p : String) : Option (List Nat) :=
  fs.lookup p

/-- Whether a path string begins with the separator, i.e. is absolute
(`std::path::Path::is_absolute` on Unix). -/
def startsWithSlash (s : String) : Bool :=
  match s.data with
  | [] => false
  | c :: _ => c = '/'

/-- Whether a path string ends with the separator. -/
def endsWithSlash (s : String) : Bool :=
  match s.data.getLast? with
  | some c => c = '/'
  | none => false

/-- Embedding of `std::path::PathBuf::join`: an absolute right operand replaces the
left; otherwise the two are joined with a separator. -/
def pathJoin (dir leaf : String) : String :=
  if startsWithSlash leaf then leaf
  else if endsWithSlash dir then dir ++ leaf
  else dir ++ ("/") ++ leaf

/-- The cfg.json URL that `backup_wled` formats from the address and port. -/
def url_cfg (ip : String) (port : Nat) : String :=
  ("http:") ++ ("//") ++ ip ++ (":") ++ toString port ++ ("/cfg.json")

/-- The presets.json URL that `backup_wled` formats from the address and port. -/
def url_presets (ip : String) (port : Nat) : String :=
  ("http:") ++ ("//") ++ ip ++ (":") ++ toString port ++ ("/presets.json")

/-- Embedding of `backup_wled` from src/main.rs: GET `/cfg.json`, decode it as text,
parse it, resolve the filename stem, write `<stem>_cfg.json` (the text
bytes), then GET `/presets.json` and stream its raw bytes into
`<stem>_presets.json`.  Every `?` in the source is a `.error` early return
here; the returned filesystem reflects the writes done up to that point. -/
def backup_wled (w : World) (ip : String) (port : Nat) (out_dir : String) (fs : FS) :
    Except String Unit × FS :=
  match w.http (url_cfg ip port) with
  | .error e => (.error e, fs)
  | .ok cfg_response =>
    let cfg_response_str := text cfg_response
    match from_str cfg_response_str with
    | .error e => (.error e, fs)
    | .ok cfg_json =>
      match get_hostname_from_cfg cfg_json with
      | .error e => (.error e, fs)
      | .ok hostname =>
        let cfg_path := pathJoin out_dir (hostname ++ ("_cfg.json"))
        if w.fsFail cfg_path then (.error ("failed to create file"), fs)
        else
          let fs1 := fsWrite fs cfg_path (strBytes cfg_response_str)
          match w.http (url_presets ip port) with
          | .error e => (.error e, fs1)
          | .ok presets_response =>
            let presets_path := pathJoin out_dir (hostname ++ ("_presets.json"))
            if w.fsFail presets_path then (.error ("failed to create file"), fs1)
            else (.ok (), fsWrite fs1 presets_path presets_response.body)

/-- One discovered device, projected to the fields the tool consumes from
`mdns_sd::ServiceInfo`: `get_hostname`, `get_fullname`, `get_addresses`
(modelled as the list of address strings in iteration order) and
`get_port`. -/
structure ServiceInfo where
  hostname : String
  fullname : String
  addresses : List String
  port : Nat
deriving DecidableEq

/-- The `for` loop of `backup_wleds` with its `final_result` accumulator:
a device with no addresses is skipped outright; otherwise `backup_wled`
runs against the first address, and on failure `final_result` is
overwritten with that error while the loop continues. -/
def backupLoop (w : World) (out_dir : String) (acc : Except String Unit × FS) :
    List ServiceInfo → Except String Unit × FS
  | [] => acc
  | wled :: rest =>
    match wled.addresses.head? with
    | none => backupLoop w out_dir acc rest
    | some ip =>
      match backup_wled w ip wled.port out_dir acc.2 with
      | (.error e, fs2) => backupLoop w out_dir (.error e, fs2) rest
      | (.ok _, fs2) => backupLoop w out_dir (acc.1, fs2) rest

/-- Embedding of `backup_wleds` from src/main.rs. -/
def backup_wleds (w : World) (wleds : List ServiceInfo) (out_dir : String) (fs : FS) :
    Except String Unit × FS :=
  backupLoop w out_dir (.ok (), fs) wleds

/-- The exit status of `main` after discovery: `std::process::exit(1)` when
`backup_wleds` returned an error, falling through to a normal exit (0)
otherwise. -/
def process_exit_status (w : World) (wleds : List ServiceInfo) (out_dir : String)
    (fs : FS) : Nat :=
  match (backup_wleds w wleds out_dir fs).1 with
  | .ok _ => 0
  | .error _ => 1

/-- The per-device outcome of the batch loop: `none` when the device is
skipped for having no addresses, otherwise the result of `backup_wled`
against the first address (which is independent of the filesystem it is
run on, see `backup_wled_fst_indep`). -/
def attemptOutcome (w : World) (out_dir : String) (dev : ServiceInfo) :
    Option (Except String Unit) :=
  match dev.addresses.head? with
  | none => none
  | some ip => some (backup_wled w ip dev.port out_dir []).1

/-- Embedding of `mdns_sd::ServiceEvent`. -/
inductive ServiceEvent where
  | searchStarted (ty : String)
  | serviceFound (ty fullname : String)
  | serviceResolved (info : ServiceInfo)
  | serviceRemoved (ty fullname : String)
  | searchStopped (ty : String)
deriving DecidableEq

/-- The payload of a resolution event; `none` for every other event kind. -/
def resolvedInfo : ServiceEvent → Option ServiceInfo
  | .serviceResolved info => some info
  | _ => none

/-- The events the `recv_timeout` loop of `discover_wleds` actually
receives.  The stream records, for each event, the time elapsed since the
previous receive returned; an event is received iff that gap is within the
budget, and the first over-budget gap makes `recv_timeout` return `Err`,
ending the loop (each wait resets the timer). -/
def receivedEvents (budget : Nat) : List (Nat × ServiceEvent) → List ServiceEvent
  | [] => []
  | (gap, ev) :: rest =>
    if gap ≤ budget then ev :: receivedEvents budget rest else []

/-- The body of the `while let` loop of `discover_wleds`: on a resolution
event, insert the device into the hostname-keyed map only when the
hostname is not yet present (`!wleds.contains_key`); every other event
kind is ignored. -/
def discoverStep (wleds : List (String × ServiceInfo)) (ev : ServiceEvent) :
    List (String × ServiceInfo) :=
  match ev with
  | .serviceResolved info =>
    if (wleds.lookup info.hostname).isSome then wleds
    else wleds ++ [(info.hostname, info)]
  | _ => wleds

/-- Embedding of `discover_wleds` from src/main.rs: fold the received events into the
hostname-keyed map and externalize the values (`into_values`). -/
def discover_wleds (budget : Nat) (stream : List (Nat × ServiceEvent)) :
    List ServiceInfo :=
  ((receivedEvents budget stream).foldl discoverStep []).map Prod.snd

/-- Rewrite every response status in a world by `f`, leaving bodies,
transport errors and the filesystem oracle unchanged. -/
def mapStatus (f : Nat → Nat) (w : World) : World where
  http := fun u => (w.http u).map (fun r => ⟨f r.status, r.body⟩)
  fsFail := w.fsFail

/-- A device whose cfg.json body is not JSON at all, used to witness C4
(it matches the repository test `test_backup_wled_invalid_cfg_json_no_files_written`). -/
def c4world : World where
  http := fun u =>
    if u = url_cfg ("127.0.0.1") 89 then .ok ⟨200, strBytes ("invalid json content")⟩
    else .error ("connection refused")
  fsFail := fun _ => false

/-- Config documents exercising each branch of identity resolution (they
mirror the repository unit tests for `get_hostname_from_cfg`). -/
def c5ok : Value := Value.obj [(("id"), Value.obj [(("name"), Value.str ("  test_device  "))])]

def c5noId : Value := Value.obj [(("other"), Value.str ("value"))]

def c5noName : Value := Value.obj [(("id"), Value.obj [(("other"), Value.str ("value"))])]

def c5notStr : Value := Value.obj [(("id"), Value.obj [(("name"), Value.num ("123"))])]

def c5ws : Value := Value.obj [(("id"), Value.obj [(("name"), Value.str ("   \t\n  "))])]

/-- The cfg.json body served for the devices of the batch witnesses. -/
def cfgBodyA : String := "\x7b\"id\":\x7b\"name\":\"testwled\"\x7d\x7d"

/-- A world with one served device at 10.0.0.1:80 and nothing else
listening. -/
def c1world : World where
  http := fun u =>
    if u = url_cfg ("10.0.0.1") 80 then .ok ⟨200, strBytes cfgBodyA⟩
    else if u = url_presets ("10.0.0.1") 80 then .ok ⟨200, strBytes ("presets data")⟩
    else .error ("connection refused")
  fsFail := fun _ => false

def c1good : ServiceInfo :=
  ⟨("mdns_name.local."), ("mdns_name._wled._tcp.local."), [("10.0.0.1")], 80⟩

def c1bad : ServiceInfo :=
  ⟨("mdns_other.local."), ("mdns_other._wled._tcp.local."), [("10.0.0.9")], 80⟩

def c8empty : ServiceInfo := ⟨("ghost.local."), ("ghost._wled._tcp.local."), [], 80⟩

def c8world : World where
  http := fun _ => .error ("connection refused")
  fsFail := fun _ => false

def c10dev1 : ServiceInfo := ⟨("wled-a.local."), ("a._wled._tcp.local."), [("10.0.0.1")], 80⟩

def c10dev2 : ServiceInfo := ⟨("wled-b.local."), ("b._wled._tcp.local."), [("10.0.0.2")], 80⟩

/-- A world in which both devices fail with different transport errors. -/
def c10world : World where
  http := fun u =>
    if u = url_cfg ("10.0.0.1") 80 then .error ("first device down")
    else if u = url_cfg ("10.0.0.2") 80 then .error ("second device down")
    else .error ("connection refused")
  fsFail := fun _ => false

/-- A world whose presets endpoint answers 404 with a small HTML-ish body
while the config endpoint is healthy. -/
def c3world : World where
  http := fun u =>
    if u = url_cfg ("127.0.0.1") 80 then .ok ⟨200, strBytes cfgBodyA⟩
    else if u = url_presets ("127.0.0.1") 80 then .ok ⟨404, strBytes ("not found")⟩
    else .error ("connection refused")
  fsFail := fun _ => false

/-- A world whose presets endpoint suffers a transport error while the
config endpoint is healthy. -/
def c3worldDown : World where
  http := fun u =>
    if u = url_cfg ("127.0.0.1") 80 then .ok ⟨200, strBytes cfgBodyA⟩
    else .error ("connection reset by peer")
  fsFail := fun _ => false

/-- A world like `c3worldDown` but with a file already present in the
output directory, to exhibit the frame property of C6. -/
def c6fs : FS := [(("unrelated.txt"), [1, 2, 3])]

/-- The config body of the C7 counterexample: JSON bytes whose name field
contains a lone 0xFF byte, which is not well-formed UTF-8. -/
def c7cfgBytes : List Nat :=
  strBytes ("\x7b\"id\":\x7b\"name\":\"a") ++ [0xFF] ++ strBytes ("b\"\x7d\x7d")

def c7world : World where
  http := fun u =>
    if u = url_cfg ("127.0.0.1") 80 then .ok ⟨200, c7cfgBytes⟩
    else if u = url_presets ("127.0.0.1") 80 then .ok ⟨200, strBytes ("presets data")⟩
    else .error ("connection refused")
  fsFail := fun _ => false

def c2infoA : ServiceInfo :=
  ⟨("wled-livingroom.local."), ("wled-livingroom._wled._tcp.local."),
    [("192.168.1.10")], 80⟩

def c2infoB : ServiceInfo :=
  ⟨("wled-livingroom.local."), ("wled-livingroom._wled._tcp.local."),
    [("192.168.1.23")], 8080⟩

/-- Two resolution events for the same hostname with different addresses
and ports, one second apart. -/
def c2stream : List (Nat × ServiceEvent) :=
  [(1, .serviceResolved c2infoA), (2, .serviceResolved c2infoB)]

def c9info : ServiceInfo :=
  ⟨("wled-kitchen.local."), ("wled-kitchen._wled._tcp.local."), [("192.168.1.40")], 80⟩

def c9late : ServiceInfo :=
  ⟨("wled-porch.local."), ("wled-porch._wled._tcp.local."), [("192.168.1.41")], 80⟩

/-- Three in-budget arrivals whose gaps sum to 9, past a 4-second budget
measured from the start — each gap alone is within the budget. -/
def c9pre : List (Nat × ServiceEvent) :=
  [(3, .searchStarted ("_wled._tcp.local.")), (3, .serviceResolved c9info),
    (3, .serviceFound ("_wled._tcp.local.") ("wled-porch._wled._tcp.local."))]

theorem backup_wled_fst_indep (w : World) (ip : String) (port : Nat) (d : String)
    (fs fs' : FS) : (backup_wled w ip port d fs).1 = (backup_wled w ip port d fs').1 := by
  unfold backup_wled
  cases w.http (url_cfg ip port) with
  | error e => rfl
  | ok rc =>
    dsimp only
    cases from_str (text rc) with
    | error e => rfl
    | ok j =>
      dsimp only
      cases get_hostname_from_cfg j with
      | error e => rfl
      | ok hn =>
        dsimp only
        by_cases hf : w.fsFail (pathJoin d (hn ++ ("_cfg.json")))
        · simp [hf]
        · simp only [hf, if_false, Bool.false_eq_true]
          cases w.http (url_presets ip port) with
          | error e => simp [hf]
          | ok rp =>
            dsimp only
            by_cases hf2 : w.fsFail (pathJoin d (hn ++ ("_presets.json"))) <;> simp [hf, hf2]

theorem string_data_append (a b : String) : (a ++ b).data = a.data ++ b.data := by
  cases a with | mk da => cases b with | mk db => rfl

theorem backup_wled_cfg_transport (w : World) (ip : String) (port : Nat) (d : String)
    (fs : FS) (e : String) (hc : w.http (url_cfg ip port) = .error e) :
    backup_wled w ip port d fs = (.error e, fs) := by
  unfold backup_wled; rw [hc]

theorem backup_wled_parse_error (w : World) (ip : String) (port : Nat) (d : String)
    (fs : FS) (rc : Response) (e : String)
    (hc : w.http (url_cfg ip port) = .ok rc) (hj : from_str (text rc) = .error e) :
    backup_wled w ip port d fs = (.error e, fs) := by
  unfold backup_wled; rw [hc]; dsimp only; rw [hj]

theorem backup_wled_identity_error (w : World) (ip : String) (port : Nat) (d : String)
    (fs : FS) (rc : Response) (j : Value) (e : String)
    (hc : w.http (url_cfg ip port) = .ok rc) (hj : from_str (text rc) = .ok j)
    (hh : get_hostname_from_cfg j = .error e) :
    backup_wled w ip port d fs = (.error e, fs) := by
  unfold backup_wled; rw [hc]; dsimp only; rw [hj]; dsimp only; rw [hh]

theorem backup_wled_cfg_write_fail (w : World) (ip : String) (port : Nat) (d : String)
    (fs : FS) (rc : Response) (j : Value) (hn : String)
    (hc : w.http (url_cfg ip port) = .ok rc) (hj : from_str (text rc) = .ok j)
    (hh : get_hostname_from_cfg j = .ok hn)
    (hf1 : w.fsFail (pathJoin d (hn ++ ("_cfg.json"))) = true) :
    backup_wled w ip port d fs = (.error ("failed to create file"), fs) := by
  unfold backup_wled; rw [hc]; dsimp only; rw [hj]; dsimp only; rw [hh]; dsimp only
  rw [hf1]; simp

theorem backup_wled_presets_transport (w : World) (ip : String) (port : Nat) (d : String)
    (fs : FS) (rc : Response) (j : Value) (hn : String) (e : String)
    (hc : w.http (url_cfg ip port) = .ok rc) (hj : from_str (text rc) = .ok j)
    (hh : get_hostname_from_cfg j = .ok hn)
    (hf1 : w.fsFail (pathJoin d (hn ++ ("_cfg.json"))) = false)
    (hp : w.http (url_presets ip port) = .error e) :
    backup_wled w ip port d fs =
      (.error e, fsWrite fs (pathJoin d (hn ++ ("_cfg.json"))) (strBytes (text rc))) := by
  unfold backup_wled; rw [hc]; dsimp only; rw [hj]; dsimp only; rw [hh]; dsimp only
  rw [hf1]; simp only [Bool.false_eq_true, if_false]; rw [hp]

theorem backup_wled_presets_write_fail (w : World) (ip : String) (port : Nat) (d : String)
    (fs : FS) (rc : Response) (j : Value) (hn : String) (rp : Response)
    (hc : w.http (url_cfg ip port) = .ok rc) (hj : from_str (text rc) = .ok j)
    (hh : get_hostname_from_cfg j = .ok hn)
    (hf1 : w.fsFail (pathJoin d (hn ++ ("_cfg.json"))) = false)
    (hp : w.http (url_presets ip port) = .ok rp)
    (hf2 : w.fsFail (pathJoin d (hn ++ ("_presets.json"))) = true) :
    backup_wled w ip port d fs =
      (.error ("failed to create file"),
        fsWrite fs (pathJoin d (hn ++ ("_cfg.json"))) (strBytes (text rc))) := by
  unfold backup_wled; rw [hc]; dsimp only; rw [hj]; dsimp only; rw [hh]; dsimp only
  rw [hf1]; simp only [Bool.false_eq_true, if_false]; rw [hp]; dsimp only; rw [hf2]; simp

theorem backup_wled_success_eq (w : World) (ip : String) (port : Nat) (d : String)
    (fs : FS) (rc : Response) (j : Value) (hn : String) (rp : Response)
    (hc : w.http (url_cfg ip port) = .ok rc) (hj : from_str (text rc) = .ok j)
    (hh : get_hostname_from_cfg j = .ok hn)
    (hf1 : w.fsFail (pathJoin d (hn ++ ("_cfg.json"))) = false)
    (hp : w.http (url_presets ip port) = .ok rp)
    (hf2 : w.fsFail (pathJoin d (hn ++ ("_presets.json"))) = false) :
    backup_wled w ip port d fs =
      (.ok (),
        fsWrite (fsWrite fs (pathJoin d (hn ++ ("_cfg.json"))) (strBytes (text rc)))
          (pathJoin d (hn ++ ("_presets.json"))) rp.body) := by
  unfold backup_wled; rw [hc]; dsimp only; rw [hj]; dsimp only; rw [hh]; dsimp only
  rw [hf1]; simp only [Bool.false_eq_true, if_false]; rw [hp]; dsimp only; rw [hf2]; simp

theorem startsWithSlash_append_eq (hn x y : String)
    (hx : startsWithSlash x = false) (hy : startsWithSlash y = false) :
    startsWithSlash (hn ++ x) = startsWithSlash (hn ++ y) := by
  cases hn with | mk dhn =>
  cases dhn with
  | nil =>
    cases x with | mk dx =>
    cases y with | mk dy =>
    simpa [startsWithSlash, string_data_append] using hx.trans hy.symm
  | cons c cs =>
    cases x with | mk dx =>
    cases y with | mk dy =>
    simp [startsWithSlash, string_data_append]

theorem pathJoin_cfg_ne_presets (d hn : String) :
    pathJoin d (hn ++ ("_cfg.json")) ≠ pathJoin d (hn ++ ("_presets.json")) := by
  intro h
  have hsw : startsWithSlash (hn ++ ("_cfg.json")) =
      startsWithSlash (hn ++ ("_presets.json")) :=
    startsWithSlash_append_eq hn _ _ (by rfl) (by rfl)
  have hlen : ∀ a b : String, a = b → a.data.length = b.data.length := by
    intro a b hab; rw [hab]
  unfold pathJoin at h
  by_cases h1 : startsWithSlash (hn ++ ("_cfg.json")) = true
  · rw [h1] at hsw
    rw [if_pos h1, if_pos hsw.symm] at h
    have := hlen _ _ h
    simp [string_data_append] at this
  · have h2 : startsWithSlash (hn ++ ("_presets.json")) = false := by
      rw [← hsw]; exact Bool.not_eq_true _ |>.mp h1
    have h1f : startsWithSlash (hn ++ ("_cfg.json")) = false := Bool.not_eq_true _ |>.mp h1
    rw [h1f, h2] at h
    simp only [Bool.false_eq_true, if_false] at h
    by_cases h3 : endsWithSlash d = true
    · rw [if_pos h3, if_pos h3] at h
      have := hlen _ _ h
      simp [string_data_append] at this
    · rw [if_neg h3, if_neg h3] at h
      have := hlen _ _ h
      simp [string_data_append] at this

/-- Claim C4: when the configuration document is syntactically invalid JSON,
or identity resolution on it fails, the backup of that device returns an
error without touching the filesystem: the state is unchanged, so neither a
config file nor a presets file for the device is created. -/
theorem backup_wled_no_write_on_bad_cfg (w : World) (ip : String) (port : Nat)
    (d : String) (fs : FS)
    (h : ∀ rc, w.http (url_cfg ip port) = .ok rc →
        (∃ e, from_str (text rc) = .error e) ∨
        (∃ j e, from_str (text rc) = .ok j ∧ get_hostname_from_cfg j = .error e)) :
    (backup_wled w ip port d fs).2 = fs ∧
      (∃ e, (backup_wled w ip port d fs).1 = .error e) ∧
      (∀ p, fsRead (backup_wled w ip port d fs).2 p = fsRead fs p) := by
  cases hc : w.http (url_cfg ip port) with
  | error e =>
    rw [backup_wled_cfg_transport w ip port d fs e hc]
    exact ⟨rfl, ⟨e, rfl⟩, fun p => rfl⟩
  | ok rc =>
    rcases h rc hc with ⟨e, he⟩ | ⟨j, e, hj, he⟩
    · rw [backup_wled_parse_error w ip port d fs rc e hc he]
      exact ⟨rfl, ⟨e, rfl⟩, fun p => rfl⟩
    · rw [backup_wled_identity_error w ip port d fs rc j e hc hj he]
      exact ⟨rfl, ⟨e, rfl⟩, fun p => rfl⟩

theorem backup_wled_no_write_on_bad_cfg_witness :
    (backup_wled c4world ("127.0.0.1") 89 ("backups") []).2 = [] ∧
      (∃ e, (backup_wled c4world ("127.0.0.1") 89 ("backups") []).1 = .error e) ∧
      (∀ p, fsRead (backup_wled c4world ("127.0.0.1") 89 ("backups") []).2 p =
        fsRead [] p) :=
  backup_wled_no_write_on_bad_cfg c4world ("127.0.0.1") 89 ("backups") []
    (by
      intro rc hrc
      left
      have hval : c4world.http (url_cfg ("127.0.0.1") 89) =
          .ok ⟨200, strBytes ("invalid json content")⟩ := by rfl
      rw [hval] at hrc
      cases hrc
      exact ⟨_, rfl⟩)

/-- Claim C5: identity resolution on a parsed configuration succeeds with
the untrimmed name exactly when the document has an object field `id`
holding an object field `name` holding a string whose trim is non-empty
(hence the identifier is non-empty); each of the four failure conditions
produces its own distinct, stable error message. -/
theorem get_hostname_from_cfg_spec (v : Value) :
    (∀ i n s, v.get ("id") = some i → i.get ("name") = some n → n = .str s →
        rustTrim s ≠ ("") → get_hostname_from_cfg v = .ok s ∧ s ≠ ("")) ∧
    (v.get ("id") = none →
        get_hostname_from_cfg v = .error ("Missing \x27id\x27 field in cfg.json")) ∧
    (∀ i, v.get ("id") = some i → i.get ("name") = none →
        get_hostname_from_cfg v = .error ("Missing \x27name\x27 field in cfg.json")) ∧
    (∀ i n, v.get ("id") = some i → i.get ("name") = some n → n.as_str = none →
        get_hostname_from_cfg v = .error ("Expected \x27name\x27 to be a string in cfg.json")) ∧
    (∀ i s, v.get ("id") = some i → i.get ("name") = some (.str s) → rustTrim s = ("") →
        get_hostname_from_cfg v = .error ("Hostname is empty or contains only whitespace")) ∧
    (("Missing \x27id\x27 field in cfg.json") ≠ ("Missing \x27name\x27 field in cfg.json") ∧
      ("Missing \x27id\x27 field in cfg.json") ≠ ("Expected \x27name\x27 to be a string in cfg.json") ∧
      ("Missing \x27id\x27 field in cfg.json") ≠ ("Hostname is empty or contains only whitespace") ∧
      ("Missing \x27name\x27 field in cfg.json") ≠ ("Expected \x27name\x27 to be a string in cfg.json") ∧
      ("Missing \x27name\x27 field in cfg.json") ≠ ("Hostname is empty or contains only whitespace") ∧
      ("Expected \x27name\x27 to be a string in cfg.json") ≠
        ("Hostname is empty or contains only whitespace")) := by
  refine ⟨?_, ?_, ?_, ?_, ?_, by decide⟩
  · intro i n s hid hname hns ht
    subst hns
    have hne : (rustTrim s).data.isEmpty = false := by
      rcases hrt : rustTrim s with ⟨l⟩
      cases l with
      | nil => exact absurd hrt ht
      | cons a as => rfl
    constructor
    · unfold get_hostname_from_cfg
      rw [hid]; dsimp only; rw [hname]
      dsimp [Value.as_str]
      simp [hne]
    · intro hs0
      subst hs0
      exact ht rfl
  · intro h0
    unfold get_hostname_from_cfg
    rw [h0]
  · intro i hid hname
    unfold get_hostname_from_cfg
    rw [hid]; dsimp only; rw [hname]
  · intro i n hid hname has
    unfold get_hostname_from_cfg
    rw [hid]; dsimp only; rw [hname]
    dsimp only
    rw [has]
  · intro i s hid hname ht
    have hemp : (rustTrim s).data.isEmpty = true := by rw [ht]; rfl
    unfold get_hostname_from_cfg
    rw [hid]; dsimp only; rw [hname]
    dsimp [Value.as_str]
    simp [hemp]

theorem get_hostname_from_cfg_spec_witness :
    get_hostname_from_cfg c5ok = .ok ("  test_device  ") ∧
      get_hostname_from_cfg c5noId = .error ("Missing \x27id\x27 field in cfg.json") ∧
      get_hostname_from_cfg c5noName = .error ("Missing \x27name\x27 field in cfg.json") ∧
      get_hostname_from_cfg c5notStr =
        .error ("Expected \x27name\x27 to be a string in cfg.json") ∧
      get_hostname_from_cfg c5ws =
        .error ("Hostname is empty or contains only whitespace") :=
  ⟨((get_hostname_from_cfg_spec c5ok).1 _ _ _ rfl rfl rfl (by decide)).1,
    (get_hostname_from_cfg_spec c5noId).2.1 rfl,
    (get_hostname_from_cfg_spec c5noName).2.2.1 _ rfl rfl,
    (get_hostname_from_cfg_spec c5notStr).2.2.2.1 _ _ rfl rfl rfl,
    (get_hostname_from_cfg_spec c5ws).2.2.2.2.1 _ _ rfl rfl (by decide)⟩

theorem backupLoop_cons (w : World) (d : String) (acc : Except String Unit × FS)
    (x : ServiceInfo) (xs : List ServiceInfo) :
    backupLoop w d acc (x :: xs) =
      match x.addresses.head? with
      | none => backupLoop w d acc xs
      | some ip =>
        match backup_wled w ip x.port d acc.2 with
        | (.error e, fs2) => backupLoop w d (.error e, fs2) xs
        | (.ok _, fs2) => backupLoop w d (acc.1, fs2) xs := rfl

theorem backupLoop_append (w : World) (d : String) (acc : Except String Unit × FS)
    (l1 l2 : List ServiceInfo) :
    backupLoop w d acc (l1 ++ l2) = backupLoop w d (backupLoop w d acc l1) l2 := by
  induction l1 generalizing acc with
  | nil => rfl
  | cons x xs ih =>
    rw [List.cons_append, backupLoop_cons, backupLoop_cons]
    cases hx : x.addresses.head? with
    | none => exact ih acc
    | some ip =>
      dsimp only
      cases hb : backup_wled w ip x.port d acc.2 with
      | mk rb fs2 =>
        cases rb with
        | error e => dsimp only; exact ih _
        | ok u => dsimp only; exact ih _

theorem backupLoop_snd_indep (w : World) (d : String) (r r' : Except String Unit)
    (fs : FS) (l : List ServiceInfo) :
    (backupLoop w d (r, fs) l).2 = (backupLoop w d (r', fs) l).2 := by
  induction l generalizing r r' fs with
  | nil => rfl
  | cons x xs ih =>
    rw [backupLoop_cons, backupLoop_cons]
    cases hx : x.addresses.head? with
    | none => exact ih r r' fs
    | some ip =>
      dsimp only
      cases hb : backup_wled w ip x.port d fs with
      | mk rb fs2 =>
        cases rb with
        | error e => dsimp only
        | ok u => dsimp only; exact ih r r' fs2

theorem backupLoop_ok_iff (w : World) (d : String) (r : Except String Unit) (fs : FS)
    (l : List ServiceInfo) :
    (backupLoop w d (r, fs) l).1 = .ok () ↔
      (r = .ok () ∧ ∀ dev ∈ l, ∀ o, attemptOutcome w d dev = some o → o = .ok ()) := by
  induction l generalizing r fs with
  | nil => simp [backupLoop]
  | cons x xs ih =>
    rw [backupLoop_cons, List.forall_mem_cons]
    cases hx : x.addresses.head? with
    | none =>
      have hnone : attemptOutcome w d x = none := by
        unfold attemptOutcome; rw [hx]
      rw [ih]
      simp [hnone]
    | some ip =>
      dsimp only
      cases hb : backup_wled w ip x.port d fs with
      | mk rb fs2 =>
        have hout : attemptOutcome w d x = some rb := by
          unfold attemptOutcome
          rw [hx]
          dsimp only
          have hind := backup_wled_fst_indep w ip x.port d [] fs
          rw [hb] at hind
          rw [hind]
        cases rb with
        | error e =>
          dsimp only
          rw [ih]
          constructor
          · rintro ⟨h1, -⟩; cases h1
          · rintro ⟨-, hx1, -⟩
            cases hx1 (.error e) hout
        | ok u =>
          cases u
          dsimp only
          rw [ih]
          constructor
          · rintro ⟨h1, h2⟩
            refine ⟨h1, ?_, h2⟩
            intro o ho
            rw [hout] at ho
            cases ho
            rfl
          · rintro ⟨h1, -, h2⟩
            exact ⟨h1, h2⟩

theorem backupLoop_all_ok (w : World) (d : String) (r : Except String Unit) (fs : FS)
    (l : List ServiceInfo)
    (hall : ∀ dev ∈ l, ∀ o, attemptOutcome w d dev = some o → o = .ok ()) :
    (backupLoop w d (r, fs) l).1 = r := by
  induction l generalizing r fs with
  | nil => rfl
  | cons x xs ih =>
    rw [List.forall_mem_cons] at hall
    rw [backupLoop_cons]
    cases hx : x.addresses.head? with
    | none => exact ih r fs hall.2
    | some ip =>
      dsimp only
      cases hb : backup_wled w ip x.port d fs with
      | mk rb fs2 =>
        have hout : attemptOutcome w d x = some rb := by
          unfold attemptOutcome
          rw [hx]
          dsimp only
          have hind := backup_wled_fst_indep w ip x.port d [] fs
          rw [hb] at hind
          rw [hind]
        cases rb with
        | error e => cases hall.1 (.error e) hout
        | ok u => cases u; dsimp only; exact ih r fs2 hall.2

/-- Claim C1: the batch loop attempts every device regardless of earlier
failures (the filesystem effect of a run over `l1 ++ l2` is the effect of
`l1` followed by the effect of `l2`), the batch result is `ok` iff no
attempted device failed, and the process exit status is 0 exactly on `ok`
and 1 exactly on failure. -/
theorem backup_wleds_aggregate (w : World) (l1 l2 : List ServiceInfo) (d : String)
    (fs : FS) :
    ((backup_wleds w (l1 ++ l2) d fs).1 = .ok () ↔
        ∀ dev ∈ l1 ++ l2, ∀ o, attemptOutcome w d dev = some o → o = .ok ()) ∧
      (backup_wleds w (l1 ++ l2) d fs).2 =
        (backup_wleds w l2 d ((backup_wleds w l1 d fs).2)).2 ∧
      (process_exit_status w (l1 ++ l2) d fs = 0 ↔
        (backup_wleds w (l1 ++ l2) d fs).1 = .ok ()) ∧
      (process_exit_status w (l1 ++ l2) d fs = 1 ↔
        ¬ (backup_wleds w (l1 ++ l2) d fs).1 = .ok ()) := by
  refine ⟨?_, ?_, ?_, ?_⟩
  · rw [backup_wleds, backupLoop_ok_iff]
    simp
  · show (backupLoop w d (.ok (), fs) (l1 ++ l2)).2 =
      (backupLoop w d (.ok (), (backupLoop w d (.ok (), fs) l1).2) l2).2
    rw [backupLoop_append]
    cases hacc : backupLoop w d (.ok (), fs) l1 with
    | mk r1 fsm => exact backupLoop_snd_indep w d r1 (.ok ()) fsm l2
  · unfold process_exit_status
    cases h : (backup_wleds w (l1 ++ l2) d fs).1 with
    | ok u => cases u; simp
    | error e => simp
  · unfold process_exit_status
    cases h : (backup_wleds w (l1 ++ l2) d fs).1 with
    | ok u => cases u; simp
    | error e => simp

theorem backup_wleds_aggregate_witness :
    ((backup_wleds c1world [c1good, c1bad] ("backups") []).1 = .ok () ↔
        ∀ dev ∈ [c1good, c1bad], ∀ o,
          attemptOutcome c1world ("backups") dev = some o → o = .ok ()) ∧
      (backup_wleds c1world [c1good, c1bad] ("backups") []).2 =
        (backup_wleds c1world [c1bad] ("backups")
          ((backup_wleds c1world [c1good] ("backups") []).2)).2 ∧
      (process_exit_status c1world [c1good, c1bad] ("backups") [] = 0 ↔
        (backup_wleds c1world [c1good, c1bad] ("backups") []).1 = .ok ()) ∧
      (process_exit_status c1world [c1good, c1bad] ("backups") [] = 1 ↔
        ¬ (backup_wleds c1world [c1good, c1bad] ("backups") []).1 = .ok ()) :=
  backup_wleds_aggregate c1world [c1good] [c1bad] ("backups") []

/-- Claim C8: a device record with an empty address set is skipped
silently: it produces no outcome, and removing it from the batch changes
neither the batch result nor the filesystem. -/
theorem backup_wleds_skip_empty (w : World) (d : String) (fs : FS)
    (l1 l2 : List ServiceInfo) (dev : ServiceInfo) (hdev : dev.addresses = []) :
    attemptOutcome w d dev = none ∧
      backup_wleds w (l1 ++ dev :: l2) d fs = backup_wleds w (l1 ++ l2) d fs := by
  have h1 : dev.addresses.head? = none := by rw [hdev]; rfl
  have hstep : ∀ acc, backupLoop w d acc (dev :: l2) = backupLoop w d acc l2 := by
    intro acc
    rw [backupLoop_cons, h1]
  refine ⟨?_, ?_⟩
  · unfold attemptOutcome; rw [h1]
  · unfold backup_wleds
    rw [backupLoop_append, hstep, ← backupLoop_append]

theorem backup_wleds_skip_empty_witness :
    attemptOutcome c8world ("backups") c8empty = none ∧
      backup_wleds c8world [c8empty] ("backups") [] =
        backup_wleds c8world [] ("backups") [] :=
  backup_wleds_skip_empty c8world ("backups") [] [] [] c8empty rfl

/-- Claim C10: when several devices fail, each later failure overwrites the
accumulated error, so the batch returns the failure reason of the last
failing device in iteration order. -/
theorem backup_wleds_last_error (w : World) (d : String) (fs : FS)
    (l1 l2 : List ServiceInfo) (x : ServiceInfo) (e : String)
    (hx : attemptOutcome w d x = some (.error e))
    (hrest : ∀ dev ∈ l2, ∀ o, attemptOutcome w d dev = some o → o = .ok ()) :
    (backup_wleds w (l1 ++ x :: l2) d fs).1 = .error e := by
  obtain ⟨ip, hip, hbw⟩ :
      ∃ ip, x.addresses.head? = some ip ∧ (backup_wled w ip x.port d []).1 = .error e := by
    unfold attemptOutcome at hx
    cases hh : x.addresses.head? with
    | none => rw [hh] at hx; cases hx
    | some ip =>
      rw [hh] at hx
      dsimp only at hx
      exact ⟨ip, rfl, by injection hx⟩
  unfold backup_wleds
  rw [backupLoop_append]
  cases hacc : backupLoop w d (.ok (), fs) l1 with
  | mk r1 fsm =>
    rw [backupLoop_cons, hip]
    dsimp only
    cases hb : backup_wled w ip x.port d fsm with
    | mk rb fsb =>
      have hrb : rb = .error e := by
        have hind := backup_wled_fst_indep w ip x.port d fsm []
        rw [hb, hbw] at hind
        exact hind
      subst hrb
      dsimp only
      exact backupLoop_all_ok w d _ fsb l2 hrest

theorem backup_wleds_last_error_witness :
    (backup_wleds c10world [c10dev1, c10dev2] ("backups") []).1 =
      .error ("second device down") :=
  backup_wleds_last_error c10world ("backups") [] [c10dev1] [] c10dev2
    ("second device down") (by rfl)
    (by intro dev hdev; exact absurd hdev (List.not_mem_nil dev))

theorem fsRead_write_self (fs : FS) (p : String) (b : List Nat) :
    fsRead (fsWrite fs p b) p = some b := by
  simp [fsRead, fsWrite, List.lookup]

theorem fsRead_write_other (fs : FS) (p q : String) (b : List Nat) (h : q ≠ p) :
    fsRead (fsWrite fs p b) q = fsRead fs q := by
  have hbeq : (q == p) = false := beq_eq_false_iff_ne.mpr h
  simp [fsRead, fsWrite, List.lookup, hbeq]

/-- Claim C3 (amended): a transport error on either resource makes the
device fail, but the HTTP status code is never inspected: the outcome and
every written file are invariant under arbitrary rewriting of response
statuses, so a non-2xx response is processed exactly like a 2xx one (its
body is parsed for the config resource and persisted for the presets
resource). -/
theorem backup_wled_transport_error_status_ignored :
    (∀ f w ip port d fs,
        backup_wled (mapStatus f w) ip port d fs = backup_wled w ip port d fs) ∧
      (∀ w ip port d fs e, w.http (url_cfg ip port) = .error e →
        backup_wled w ip port d fs = (.error e, fs)) ∧
      (∀ w ip port d fs rc j hn e,
        w.http (url_cfg ip port) = .ok rc → from_str (text rc) = .ok j →
        get_hostname_from_cfg j = .ok hn →
        w.fsFail (pathJoin d (hn ++ ("_cfg.json"))) = false →
        w.http (url_presets ip port) = .error e →
        (backup_wled w ip port d fs).1 = .error e) := by
  refine ⟨?_, ?_, ?_⟩
  · intro f w ip port d fs
    unfold backup_wled
    have hmap : ∀ u, (mapStatus f w).http u =
        (w.http u).map (fun r => ⟨f r.status, r.body⟩) := fun u => rfl
    have hff : (mapStatus f w).fsFail = w.fsFail := rfl
    rw [hmap, hmap, hff]
    cases w.http (url_cfg ip port) with
    | error e => rfl
    | ok rc =>
      dsimp only [Except.map]
      have htext : text ⟨f rc.status, rc.body⟩ = text rc := rfl
      rw [htext]
      cases from_str (text rc) with
      | error e => rfl
      | ok j =>
        dsimp only
        cases get_hostname_from_cfg j with
        | error e => rfl
        | ok hn =>
          dsimp only
          by_cases h1 : w.fsFail (pathJoin d (hn ++ ("_cfg.json")))
          · simp [h1]
          · simp only [h1, Bool.false_eq_true, if_false]
            cases w.http (url_presets ip port) with
            | error e => rfl
            | ok rp =>
              dsimp only [Except.map]
  · exact fun w ip port d fs e hc => backup_wled_cfg_transport w ip port d fs e hc
  · intro w ip port d fs rc j hn e hc hj hh hf1 hp
    rw [backup_wled_presets_transport w ip port d fs rc j hn e hc hj hh hf1 hp]

/-- Claim C3 counterexample: the presets endpoint answers a non-2xx status
(404), yet the device's backup succeeds and the 404 body is persisted as
the presets file, refuting the claim that a non-2xx response yields a
failure for the device. -/
theorem backup_wled_non2xx_not_failure :
    c3world.http (url_presets ("127.0.0.1") 80) = .ok ⟨404, strBytes ("not found")⟩ ∧
      (backup_wled c3world ("127.0.0.1") 80 ("backups") []).1 = .ok () ∧
      fsRead (backup_wled c3world ("127.0.0.1") 80 ("backups") []).2
        (pathJoin ("backups") ("testwled_presets.json")) =
        some (strBytes ("not found")) :=
  ⟨rfl, rfl, rfl⟩

theorem backup_wled_transport_error_status_ignored_witness :
    backup_wled (mapStatus (fun _ => 500) c3world) ("127.0.0.1") 80 ("backups") [] =
        backup_wled c3world ("127.0.0.1") 80 ("backups") [] ∧
      backup_wled c3world ("10.9.9.9") 80 ("backups") [] =
        (.error ("connection refused"), []) ∧
      (backup_wled c3worldDown ("127.0.0.1") 80 ("backups") []).1 =
        .error ("connection reset by peer") :=
  ⟨backup_wled_transport_error_status_ignored.1 (fun _ => 500) c3world ("127.0.0.1") 80
      ("backups") [],
    backup_wled_transport_error_status_ignored.2.1 c3world ("10.9.9.9") 80 ("backups") []
      ("connection refused") rfl,
    backup_wled_transport_error_status_ignored.2.2 c3worldDown ("127.0.0.1") 80 ("backups")
      [] ⟨200, strBytes cfgBodyA⟩
      (Value.obj [(("id"), Value.obj [(("name"), Value.str ("testwled"))])])
      ("testwled") ("connection reset by peer") rfl rfl rfl rfl rfl⟩

/-- Claim C6: when the config resource was fetched, parsed, resolved and
written but the presets fetch or write then fails, the device's outcome is
an error, the config file stays on disk with exactly the content that was
written (no rollback), and no other path is affected. -/
theorem backup_wled_cfg_kept_on_presets_failure (w : World) (ip : String) (port : Nat)
    (d : String) (fs : FS) (rc : Response) (j : Value) (hn : String)
    (hc : w.http (url_cfg ip port) = .ok rc) (hj : from_str (text rc) = .ok j)
    (hh : get_hostname_from_cfg j = .ok hn)
    (hf1 : w.fsFail (pathJoin d (hn ++ ("_cfg.json"))) = false)
    (hfail : (∃ e, w.http (url_presets ip port) = .error e) ∨
      w.fsFail (pathJoin d (hn ++ ("_presets.json"))) = true) :
    (∃ e, (backup_wled w ip port d fs).1 = .error e) ∧
      fsRead (backup_wled w ip port d fs).2 (pathJoin d (hn ++ ("_cfg.json"))) =
        some (strBytes (text rc)) ∧
      (∀ p, p ≠ pathJoin d (hn ++ ("_cfg.json")) →
        fsRead (backup_wled w ip port d fs).2 p = fsRead fs p) := by
  rcases hfail with ⟨e, hp⟩ | hf2
  · rw [backup_wled_presets_transport w ip port d fs rc j hn e hc hj hh hf1 hp]
    exact ⟨⟨e, rfl⟩, fsRead_write_self fs _ _,
      fun p hne => fsRead_write_other fs _ p _ hne⟩
  · cases hp : w.http (url_presets ip port) with
    | error e =>
      rw [backup_wled_presets_transport w ip port d fs rc j hn e hc hj hh hf1 hp]
      exact ⟨⟨e, rfl⟩, fsRead_write_self fs _ _,
        fun p hne => fsRead_write_other fs _ p _ hne⟩
    | ok rp =>
      rw [backup_wled_presets_write_fail w ip port d fs rc j hn rp hc hj hh hf1 hp hf2]
      exact ⟨⟨("failed to create file"), rfl⟩, fsRead_write_self fs _ _,
        fun p hne => fsRead_write_other fs _ p _ hne⟩

theorem backup_wled_cfg_kept_on_presets_failure_witness :
    (∃ e, (backup_wled c3worldDown ("127.0.0.1") 80 ("backups") c6fs).1 = .error e) ∧
      fsRead (backup_wled c3worldDown ("127.0.0.1") 80 ("backups") c6fs).2
        (pathJoin ("backups") (("testwled") ++ ("_cfg.json"))) =
        some (strBytes (text ⟨200, strBytes cfgBodyA⟩)) ∧
      fsRead (backup_wled c3worldDown ("127.0.0.1") 80 ("backups") c6fs).2
        ("unrelated.txt") = fsRead c6fs ("unrelated.txt") :=
  have h := backup_wled_cfg_kept_on_presets_failure c3worldDown ("127.0.0.1") 80
    ("backups") c6fs ⟨200, strBytes cfgBodyA⟩
    (Value.obj [(("id"), Value.obj [(("name"), Value.str ("testwled"))])])
    ("testwled") rfl rfl rfl rfl (.inl ⟨("connection reset by peer"), rfl⟩)
  ⟨h.1, h.2.1, h.2.2 ("unrelated.txt") (by decide)⟩

theorem char_toNat_ofNat (n : Nat) (h : n.isValidChar) : (Char.ofNat n).toNat = n := by
  unfold Char.ofNat
  rw [dif_pos h]
  rfl

theorem utf8_roundtrip_aux (n : Nat) : ∀ l : List Nat, l.length ≤ n →
    validUtf8 l = true → bytesOfChars (utf8DecodeLossy l) = l := by
  induction n with
  | zero =>
    intro l hl h
    cases l with
    | nil => rfl
    | cons b0 rest => simp at hl
  | succ n ih =>
    intro l hl h
    cases l with
    | nil => rfl
    | cons b0 rest =>
      rw [validUtf8.eq_def] at h
      dsimp only at h
      by_cases h80 : b0 < 0x80
      · rw [if_pos h80] at h
        have e1 : utf8DecodeLossy (b0 :: rest) = Char.ofNat b0 :: utf8DecodeLossy rest := by
          conv_lhs => rw [utf8DecodeLossy.eq_def]
          dsimp only
          rw [if_pos h80]
        rw [e1]
        simp only [bytesOfChars]
        rw [char_toNat_ofNat b0 (Or.inl (by omega))]
        rw [ih rest (by simp only [List.length_cons] at hl; omega) h]
        unfold utf8EncodeChar
        rw [if_pos h80]
        rfl
      · rw [if_neg h80] at h
        by_cases hC2 : b0 < 0xC2
        · rw [if_pos hC2] at h
          cases h
        · rw [if_neg hC2] at h
          by_cases hE0 : b0 < 0xE0
          · rw [if_pos hE0] at h
            cases rest with
            | nil => cases h
            | cons b1 rest1 =>
              dsimp only at h
              by_cases hcond : 0x80 ≤ b1 ∧ b1 < 0xC0
              · rw [if_pos hcond] at h
                have e1 : utf8DecodeLossy (b0 :: b1 :: rest1) =
                    Char.ofNat ((b0 - 0xC0) * 64 + (b1 - 0x80)) :: utf8DecodeLossy rest1 := by
                  conv_lhs => rw [utf8DecodeLossy.eq_def]
                  dsimp only
                  rw [if_neg h80, if_neg hC2, if_pos hE0, if_pos hcond]
                rw [e1]
                simp only [bytesOfChars]
                rw [char_toNat_ofNat _ (Or.inl (by omega))]
                rw [ih rest1 (by simp only [List.length_cons] at hl; omega) h]
                have henc : utf8EncodeChar ((b0 - 0xC0) * 64 + (b1 - 0x80)) = [b0, b1] := by
                  unfold utf8EncodeChar
                  rw [if_neg (by omega), if_pos (by omega)]
                  have e2 : 0xC0 + ((b0 - 0xC0) * 64 + (b1 - 0x80)) / 64 = b0 := by omega
                  have e3 : 0x80 + ((b0 - 0xC0) * 64 + (b1 - 0x80)) % 64 = b1 := by omega
                  rw [e2, e3]
                rw [henc]
                rfl
              · rw [if_neg hcond] at h
                cases h
          · rw [if_neg hE0] at h
            by_cases hF0 : b0 < 0xF0
            · rw [if_pos hF0] at h
              cases rest with
              | nil => cases h
              | cons b1 rest1 =>
                dsimp only at h
                by_cases hcond1 : (if b0 = 0xE0 then 0xA0 else 0x80) ≤ b1 ∧
                    b1 ≤ (if b0 = 0xED then 0x9F else 0xBF)
                · rw [if_pos hcond1] at h
                  cases rest1 with
                  | nil => cases h
                  | cons b2 rest2 =>
                    dsimp only at h
                    by_cases hcond2 : 0x80 ≤ b2 ∧ b2 < 0xC0
                    · rw [if_pos hcond2] at h
                      have hb1lo : 0x80 ≤ b1 := by
                        rcases hcond1 with ⟨hL, -⟩
                        by_cases hx : b0 = 0xE0
                        · rw [if_pos hx] at hL; omega
                        · rw [if_neg hx] at hL; omega
                      have hb1hi : b1 ≤ 0xBF := by
                        rcases hcond1 with ⟨-, hR⟩
                        by_cases hx : b0 = 0xED
                        · rw [if_pos hx] at hR; omega
                        · rw [if_neg hx] at hR; omega
                      have hover : 0x800 ≤ (b0 - 0xE0) * 4096 + (b1 - 0x80) * 64 + (b2 - 0x80) := by
                        rcases hcond1 with ⟨hL, -⟩
                        by_cases hx : b0 = 0xE0
                        · rw [if_pos hx] at hL; omega
                        · rw [if_neg hx] at hL; omega
                      have hval : ((b0 - 0xE0) * 4096 + (b1 - 0x80) * 64 + (b2 - 0x80)).isValidChar := by
                        unfold Nat.isValidChar
                        rcases hcond1 with ⟨-, hR⟩
                        by_cases hx : b0 = 0xED
                        · rw [if_pos hx] at hR; left; omega
                        · rw [if_neg hx] at hR
                          by_cases hlt : b0 ≤ 0xEC
                          · left; omega
                          · right; omega
                      have e1 : utf8DecodeLossy (b0 :: b1 :: b2 :: rest2) =
                          Char.ofNat ((b0 - 0xE0) * 4096 + (b1 - 0x80) * 64 + (b2 - 0x80)) ::
                            utf8DecodeLossy rest2 := by
                        conv_lhs => rw [utf8DecodeLossy.eq_def]
                        dsimp only
                        rw [if_neg h80, if_neg hC2, if_neg hE0, if_pos hF0, if_pos hcond1,
                          if_pos hcond2]
                      rw [e1]
                      simp only [bytesOfChars]
                      rw [char_toNat_ofNat _ hval]
                      rw [ih rest2 (by simp only [List.length_cons] at hl; omega) h]
                      have henc : utf8EncodeChar
                          ((b0 - 0xE0) * 4096 + (b1 - 0x80) * 64 + (b2 - 0x80)) =
                          [b0, b1, b2] := by
                        unfold utf8EncodeChar
                        rw [if_neg (by omega), if_neg (by omega), if_pos (by omega)]
                        have e2 : 0xE0 + ((b0 - 0xE0) * 4096 + (b1 - 0x80) * 64 + (b2 - 0x80)) / 4096 = b0 := by
                          omega
                        have e3 : 0x80 + ((b0 - 0xE0) * 4096 + (b1 - 0x80) * 64 + (b2 - 0x80)) / 64 % 64 = b1 := by
                          omega
                        have e4 : 0x80 + ((b0 - 0xE0) * 4096 + (b1 - 0x80) * 64 + (b2 - 0x80)) % 64 = b2 := by
                          omega
                        rw [e2, e3, e4]
                      rw [henc]
                      rfl
                    · rw [if_neg hcond2] at h
                      cases h
                · rw [if_neg hcond1] at h
                  cases h
            · rw [if_neg hF0] at h
              by_cases hF5 : b0 < 0xF5
              · rw [if_pos hF5] at h
                cases rest with
                | nil => cases h
                | cons b1 rest1 =>
                  dsimp only at h
                  by_cases hcond1 : (if b0 = 0xF0 then 0x90 else 0x80) ≤ b1 ∧
                      b1 ≤ (if b0 = 0xF4 then 0x8F else 0xBF)
                  · rw [if_pos hcond1] at h
                    cases rest1 with
                    | nil => cases h
                    | cons b2 rest2 =>
                      dsimp only at h
                      by_cases hcond2 : 0x80 ≤ b2 ∧ b2 < 0xC0
                      · rw [if_pos hcond2] at h
                        cases rest2 with
                        | nil => cases h
                        | cons b3 rest3 =>
                          dsimp only at h
                          by_cases hcond3 : 0x80 ≤ b3 ∧ b3 < 0xC0
                          · rw [if_pos hcond3] at h
                            have hb1lo : 0x80 ≤ b1 := by
                              rcases hcond1 with ⟨hL, -⟩
                              by_cases hx : b0 = 0xF0
                              · rw [if_pos hx] at hL; omega
                              · rw [if_neg hx] at hL; omega
                            have hb1hi : b1 ≤ 0xBF := by
                              rcases hcond1 with ⟨-, hR⟩
                              by_cases hx : b0 = 0xF4
                              · rw [if_pos hx] at hR; omega
                              · rw [if_neg hx] at hR; omega
                            have hover : 0x10000 ≤ (b0 - 0xF0) * 262144 + (b1 - 0x80) * 4096 +
                                (b2 - 0x80) * 64 + (b3 - 0x80) := by
                              rcases hcond1 with ⟨hL, -⟩
                              by_cases hx : b0 = 0xF0
                              · rw [if_pos hx] at hL; omega
                              · rw [if_neg hx] at hL; omega
                            have hhi : (b0 - 0xF0) * 262144 + (b1 - 0x80) * 4096 +
                                (b2 - 0x80) * 64 + (b3 - 0x80) < 0x110000 := by
                              rcases hcond1 with ⟨-, hR⟩
                              by_cases hx : b0 = 0xF4
                              · rw [if_pos hx] at hR; omega
                              · rw [if_neg hx] at hR; omega
                            have hval : ((b0 - 0xF0) * 262144 + (b1 - 0x80) * 4096 +
                                (b2 - 0x80) * 64 + (b3 - 0x80)).isValidChar := by
                              unfold Nat.isValidChar
                              right
                              omega
                            have e1 : utf8DecodeLossy (b0 :: b1 :: b2 :: b3 :: rest3) =
                                Char.ofNat ((b0 - 0xF0) * 262144 + (b1 - 0x80) * 4096 +
                                  (b2 - 0x80) * 64 + (b3 - 0x80)) :: utf8DecodeLossy rest3 := by
                              conv_lhs => rw [utf8DecodeLossy.eq_def]
                              dsimp only
                              rw [if_neg h80, if_neg hC2, if_neg hE0, if_neg hF0, if_pos hF5,
                                if_pos hcond1, if_pos hcond2, if_pos hcond3]
                            rw [e1]
                            simp only [bytesOfChars]
                            rw [char_toNat_ofNat _ hval]
                            rw [ih rest3 (by simp only [List.length_cons] at hl; omega) h]
                            have henc : utf8EncodeChar ((b0 - 0xF0) * 262144 +
                                (b1 - 0x80) * 4096 + (b2 - 0x80) * 64 + (b3 - 0x80)) =
                                [b0, b1, b2, b3] := by
                              unfold utf8EncodeChar
                              rw [if_neg (by omega), if_neg (by omega), if_neg (by omega)]
                              have e2 : 0xF0 + ((b0 - 0xF0) * 262144 + (b1 - 0x80) * 4096 +
                                  (b2 - 0x80) * 64 + (b3 - 0x80)) / 262144 = b0 := by omega
                              have e3 : 0x80 + ((b0 - 0xF0) * 262144 + (b1 - 0x80) * 4096 +
                                  (b2 - 0x80) * 64 + (b3 - 0x80)) / 4096 % 64 = b1 := by omega
                              have e4 : 0x80 + ((b0 - 0xF0) * 262144 + (b1 - 0x80) * 4096 +
                                  (b2 - 0x80) * 64 + (b3 - 0x80)) / 64 % 64 = b2 := by omega
                              have e5 : 0x80 + ((b0 - 0xF0) * 262144 + (b1 - 0x80) * 4096 +
                                  (b2 - 0x80) * 64 + (b3 - 0x80)) % 64 = b3 := by omega
                              rw [e2, e3, e4, e5]
                            rw [henc]
                            rfl
                          · rw [if_neg hcond3] at h
                            cases h
                      · rw [if_neg hcond2] at h
                        cases h
                  · rw [if_neg hcond1] at h
                    cases h
              · rw [if_neg hF5] at h
                cases h

theorem utf8_roundtrip (l : List Nat) (h : validUtf8 l = true) :
    bytesOfChars (utf8DecodeLossy l) = l :=
  utf8_roundtrip_aux l.length l le_rfl h

/-- Claim C7 (amended): for a successful device backup, the presets file
holds exactly the bytes of the presets response body (raw `copy`); the
config file holds the UTF-8 re-encoding of the lossily decoded config body
(because `Response::text` decodes before `write_all` re-encodes), which
equals the body byte-for-byte whenever the body is well-formed UTF-8 — as
every conforming JSON response is — but not for ill-formed bodies. -/
theorem backup_wled_saved_bytes (w : World) (ip : String) (port : Nat) (d : String)
    (fs : FS) (rc : Response) (j : Value) (hn : String) (rp : Response)
    (hc : w.http (url_cfg ip port) = .ok rc) (hj : from_str (text rc) = .ok j)
    (hh : get_hostname_from_cfg j = .ok hn)
    (hf1 : w.fsFail (pathJoin d (hn ++ ("_cfg.json"))) = false)
    (hp : w.http (url_presets ip port) = .ok rp)
    (hf2 : w.fsFail (pathJoin d (hn ++ ("_presets.json"))) = false) :
    (backup_wled w ip port d fs).1 = .ok () ∧
      fsRead (backup_wled w ip port d fs).2 (pathJoin d (hn ++ ("_presets.json"))) =
        some rp.body ∧
      fsRead (backup_wled w ip port d fs).2 (pathJoin d (hn ++ ("_cfg.json"))) =
        some (bytesOfChars (utf8DecodeLossy rc.body)) ∧
      (validUtf8 rc.body = true →
        fsRead (backup_wled w ip port d fs).2 (pathJoin d (hn ++ ("_cfg.json"))) =
          some rc.body) := by
  rw [backup_wled_success_eq w ip port d fs rc j hn rp hc hj hh hf1 hp hf2]
  refine ⟨rfl, ?_, ?_, ?_⟩
  · exact fsRead_write_self _ _ _
  · rw [fsRead_write_other _ _ _ _ (pathJoin_cfg_ne_presets d hn)]
    exact fsRead_write_self _ _ _
  · intro hvalid
    rw [fsRead_write_other _ _ _ _ (pathJoin_cfg_ne_presets d hn)]
    rw [fsRead_write_self]
    have hrt : strBytes (text rc) = rc.body := utf8_roundtrip rc.body hvalid
    rw [hrt]

theorem backup_wled_saved_bytes_witness :
    (backup_wled c1world ("10.0.0.1") 80 ("backups") []).1 = .ok () ∧
      fsRead (backup_wled c1world ("10.0.0.1") 80 ("backups") []).2
        (pathJoin ("backups") (("testwled") ++ ("_presets.json"))) =
        some (strBytes ("presets data")) ∧
      fsRead (backup_wled c1world ("10.0.0.1") 80 ("backups") []).2
        (pathJoin ("backups") (("testwled") ++ ("_cfg.json"))) =
        some (strBytes cfgBodyA) :=
  have h := backup_wled_saved_bytes c1world ("10.0.0.1") 80 ("backups") []
    ⟨200, strBytes cfgBodyA⟩
    (Value.obj [(("id"), Value.obj [(("name"), Value.str ("testwled"))])])
    ("testwled") ⟨200, strBytes ("presets data")⟩ rfl rfl rfl rfl rfl rfl
  ⟨h.1, h.2.1, h.2.2.2 (by decide)⟩

/-- Claim C7 counterexample: a backup that succeeds although the saved
config file differs byte-for-byte from the served response body — the lone
0xFF byte became the three-byte UTF-8 replacement character, because the
config body is written back from its decoded text rather than copied
raw. -/
theorem backup_wled_cfg_transcodes :
    (backup_wled c7world ("127.0.0.1") 80 ("backups") []).1 = .ok () ∧
      c7world.http (url_cfg ("127.0.0.1") 80) = .ok ⟨200, c7cfgBytes⟩ ∧
      fsRead (backup_wled c7world ("127.0.0.1") 80 ("backups") []).2
        (pathJoin ("backups") (("a\uFFFDb") ++ ("_cfg.json"))) ≠ some c7cfgBytes ∧
      fsRead (backup_wled c7world ("127.0.0.1") 80 ("backups") []).2
        (pathJoin ("backups") (("a\uFFFDb") ++ ("_cfg.json"))) =
        some (strBytes ("\x7b\"id\":\x7b\"name\":\"a\uFFFDb\"\x7d\x7d")) := by
  refine ⟨rfl, rfl, by decide, rfl⟩

theorem lookup_eq_none_iff (m : List (String × ServiceInfo)) (k : String) :
    m.lookup k = none ↔ k ∉ m.map Prod.fst := by
  induction m with
  | nil => simp [List.lookup]
  | cons q rest ih =>
    cases q with
    | mk k0 v0 =>
      simp only [List.lookup, List.map_cons, List.mem_cons]
      by_cases hk : k = k0
      · subst hk
        simp
      · have hbeq : (k == k0) = false := beq_eq_false_iff_ne.mpr hk
        simp [hbeq, hk, ih]

theorem lookup_append (m1 m2 : List (String × ServiceInfo)) (k : String) :
    (m1 ++ m2).lookup k =
      (match m1.lookup k with
       | some v => some v
       | none => m2.lookup k) := by
  induction m1 with
  | nil => simp [List.lookup]
  | cons q rest ih =>
    cases q with
    | mk k0 v0 =>
      simp only [List.cons_append, List.lookup]
      cases k == k0 with
      | true => rfl
      | false => exact ih

theorem foldl_discoverStep_lookup (evs : List ServiceEvent) :
    ∀ (m : List (String × ServiceInfo)) (k : String),
      (evs.foldl discoverStep m).lookup k =
        (match m.lookup k with
         | some i => some i
         | none => (evs.filterMap resolvedInfo).find? (fun i => i.hostname == k)) := by
  induction evs with
  | nil =>
    intro m k
    cases hm : m.lookup k with
    | none => rw [List.foldl_nil, hm]; rfl
    | some i => rw [List.foldl_nil, hm]
  | cons ev evs ih =>
    intro m k
    rw [List.foldl_cons]
    cases ev with
    | serviceResolved info =>
      rw [List.filterMap_cons]
      dsimp only [resolvedInfo, discoverStep]
      by_cases hmem : (m.lookup info.hostname).isSome = true
      · rw [if_pos hmem, ih m k]
        cases hm : m.lookup k with
        | some i => rfl
        | none =>
          rw [List.find?_cons]
          by_cases hk : (info.hostname == k) = true
          · exfalso
            have he : info.hostname = k := beq_iff_eq.mp hk
            rw [he, hm] at hmem
            cases hmem
          · rw [Bool.not_eq_true] at hk
            rw [hk]
      · rw [if_neg hmem, ih (m ++ [(info.hostname, info)]) k, lookup_append]
        cases hm : m.lookup k with
        | some i => rfl
        | none =>
          dsimp only [List.lookup]
          rw [List.find?_cons]
          by_cases hk : (k == info.hostname) = true
          · have he : k = info.hostname := beq_iff_eq.mp hk
            rw [hk]
            have hk2 : (info.hostname == k) = true := beq_iff_eq.mpr he.symm
            rw [hk2]
          · rw [Bool.not_eq_true] at hk
            rw [hk]
            have hk2 : (info.hostname == k) = false := by
              rw [beq_eq_false_iff_ne]
              intro he
              rw [beq_eq_false_iff_ne] at hk
              exact hk he.symm
            rw [hk2]
    | searchStarted ty =>
      rw [List.filterMap_cons]
      dsimp only [resolvedInfo, discoverStep]
      exact ih m k
    | serviceFound ty fn =>
      rw [List.filterMap_cons]
      dsimp only [resolvedInfo, discoverStep]
      exact ih m k
    | serviceRemoved ty fn =>
      rw [List.filterMap_cons]
      dsimp only [resolvedInfo, discoverStep]
      exact ih m k
    | searchStopped ty =>
      rw [List.filterMap_cons]
      dsimp only [resolvedInfo, discoverStep]
      exact ih m k

theorem discoverStep_inv (m : List (String × ServiceInfo)) (ev : ServiceEvent)
    (h : (∀ q ∈ m, q.2.hostname = q.1) ∧ (m.map Prod.fst).Nodup) :
    (∀ q ∈ discoverStep m ev, q.2.hostname = q.1) ∧
      ((discoverStep m ev).map Prod.fst).Nodup := by
  cases ev with
  | serviceResolved info =>
    dsimp only [discoverStep]
    by_cases hmem : (m.lookup info.hostname).isSome = true
    · rw [if_pos hmem]
      exact h
    · rw [if_neg hmem]
      constructor
      · intro q hq
        rcases List.mem_append.mp hq with hq1 | hq2
        · exact h.1 q hq1
        · rcases List.mem_singleton.mp hq2 with rfl
          rfl
      · rw [List.map_append]
        rw [List.nodup_append]
        refine ⟨h.2, List.nodup_singleton _, ?_⟩
        intro a ha hb
        have hnone : m.lookup info.hostname = none := by
          cases hl : m.lookup info.hostname with
          | none => rfl
          | some v => rw [hl] at hmem; exact absurd rfl hmem
        have hnotin : info.hostname ∉ m.map Prod.fst :=
          (lookup_eq_none_iff m info.hostname).mp hnone
        simp only [List.map_cons, List.map_nil, List.mem_singleton] at hb
        subst hb
        exact hnotin ha
  | searchStarted ty => exact h
  | serviceFound ty fn => exact h
  | serviceRemoved ty fn => exact h
  | searchStopped ty => exact h

theorem foldl_discoverStep_inv (evs : List ServiceEvent) :
    ∀ m, ((∀ q ∈ m, q.2.hostname = q.1) ∧ (m.map Prod.fst).Nodup) →
      ((∀ q ∈ evs.foldl discoverStep m, q.2.hostname = q.1) ∧
        ((evs.foldl discoverStep m).map Prod.fst).Nodup) := by
  induction evs with
  | nil => intro m h; exact h
  | cons ev evs ih =>
    intro m h
    rw [List.foldl_cons]
    exact ih _ (discoverStep_inv m ev h)

theorem map_filter_eq_lookup_toList (m : List (String × ServiceInfo))
    (hinv : (∀ q ∈ m, q.2.hostname = q.1) ∧ (m.map Prod.fst).Nodup) (k : String) :
    (m.map Prod.snd).filter (fun i => i.hostname == k) = (m.lookup k).toList := by
  induction m with
  | nil => rfl
  | cons q rest ih =>
    cases q with
    | mk k0 v0 =>
      have hq : v0.hostname = k0 := hinv.1 (k0, v0) (List.mem_cons_self _ _)
      have hrest : (∀ q ∈ rest, q.2.hostname = q.1) ∧ (rest.map Prod.fst).Nodup := by
        refine ⟨fun q hq2 => hinv.1 q (List.mem_cons_of_mem _ hq2), ?_⟩
        have := hinv.2
        rw [List.map_cons, List.nodup_cons] at this
        exact this.2
      simp only [List.map_cons, List.filter_cons, List.lookup]
      by_cases hk : (k == k0) = true
      · have he : k = k0 := beq_iff_eq.mp hk
        have hcond : (v0.hostname == k) = true := by
          rw [hq, he]
          exact beq_self_eq_true k0
        rw [hcond, hk]
        dsimp only [Option.toList]
        have hk0notin : k0 ∉ rest.map Prod.fst := by
          have := hinv.2
          rw [List.map_cons, List.nodup_cons] at this
          exact this.1
        have hfilter : (rest.map Prod.snd).filter (fun i => i.hostname == k) = [] := by
          rw [List.filter_eq_nil_iff]
          intro i hi
          rcases List.mem_map.mp hi with ⟨⟨ka, va⟩, hmem, hsnd⟩
          have hhost : va.hostname = ka := hinv.1 (ka, va) (List.mem_cons_of_mem _ hmem)
          have hka : ka ≠ k0 := by
            intro hcontra
            subst hcontra
            exact hk0notin (List.mem_map.mpr ⟨(ka, va), hmem, rfl⟩)
          rw [Bool.not_eq_true, beq_eq_false_iff_ne]
          rw [← hsnd] at *
          rw [hhost, he]
          exact hka
        rw [hfilter]
        rfl
      · rw [Bool.not_eq_true] at hk
        have hcond : (v0.hostname == k) = false := by
          rw [hq]
          rw [beq_eq_false_iff_ne] at hk ⊢
          intro hcontra
          exact hk hcontra.symm
        rw [hcond, hk]
        exact ih hrest

/-- Claim C2 (amended): for each hostname the discovery collector keeps
exactly one record, namely the one from the FIRST resolution event carrying
that hostname — `discover_wleds` only inserts when the hostname is not yet
in the map, so a later announcement for a hostname already seen is
discarded rather than overwriting (first-wins, not last-wins). -/
theorem discover_wleds_first_wins (budget : Nat) (stream : List (Nat × ServiceEvent))
    (k : String) :
    (discover_wleds budget stream).filter (fun i => i.hostname == k) =
      ((((receivedEvents budget stream).filterMap resolvedInfo).find?
        (fun i => i.hostname == k)).toList) := by
  unfold discover_wleds
  have hinv := foldl_discoverStep_inv (receivedEvents budget stream) []
    (by constructor
        · intro q hq
          cases hq
        · exact List.nodup_nil)
  rw [map_filter_eq_lookup_toList _ hinv k]
  rw [foldl_discoverStep_lookup (receivedEvents budget stream) [] k]
  rfl

/-- Claim C2 counterexample: after two announcements with the same hostname,
exactly one record survives, but it carries the address list and port of
the FIRST event (port 80, address 192.168.1.10), not of the later one —
refuting the last-wins reading. -/
theorem discover_wleds_keeps_first_not_last :
    discover_wleds 4 c2stream = [c2infoA] ∧
      c2infoA.port = 80 ∧ c2infoB.port = 8080 ∧
      c2infoA.addresses = [("192.168.1.10")] ∧
      c2infoB.addresses = [("192.168.1.23")] ∧
      discover_wleds 4 c2stream ≠ [c2infoB] :=
  ⟨rfl, rfl, rfl, rfl, rfl, by decide⟩

theorem discover_wleds_first_wins_witness :
    (discover_wleds 4 c2stream).filter
        (fun i => i.hostname == ("wled-livingroom.local.")) = [c2infoA] :=
  discover_wleds_first_wins 4 c2stream ("wled-livingroom.local.")

theorem receivedEvents_all (budget : Nat) (stream : List (Nat × ServiceEvent))
    (h : ∀ p ∈ stream, p.1 ≤ budget) :
    receivedEvents budget stream = stream.map Prod.snd := by
  induction stream with
  | nil => rfl
  | cons p rest ih =>
    cases p with
    | mk gap ev =>
      have hgap : gap ≤ budget := h (gap, ev) (List.mem_cons_self _ _)
      simp only [receivedEvents, List.map_cons]
      rw [if_pos hgap]
      rw [ih (fun q hq => h q (List.mem_cons_of_mem _ hq))]

theorem receivedEvents_cutoff (budget : Nat) (pre post : List (Nat × ServiceEvent))
    (g : Nat) (e : ServiceEvent) (hpre : ∀ p ∈ pre, p.1 ≤ budget) (hg : budget < g) :
    receivedEvents budget (pre ++ (g, e) :: post) = receivedEvents budget pre := by
  induction pre with
  | nil =>
    simp only [List.nil_append, receivedEvents]
    rw [if_neg (by omega)]
  | cons p rest ih =>
    cases p with
    | mk gap ev =>
      have hgap : gap ≤ budget := hpre (gap, ev) (List.mem_cons_self _ _)
      simp only [List.cons_append, receivedEvents]
      rw [if_pos hgap, if_pos hgap]
      exact congrArg (List.cons ev) (ih (fun q hq => hpre q (List.mem_cons_of_mem _ hq)))

theorem foldl_discoverStep_filterResolved (evs : List ServiceEvent) :
    ∀ m, evs.foldl discoverStep m =
      (evs.filter (fun ev => (resolvedInfo ev).isSome)).foldl discoverStep m := by
  induction evs with
  | nil => intro m; rfl
  | cons ev evs ih =>
    intro m
    rw [List.foldl_cons, List.filter_cons]
    cases ev with
    | serviceResolved info =>
      dsimp only [resolvedInfo, Option.isSome]
      rw [if_pos rfl, List.foldl_cons]
      exact ih _
    | searchStarted ty =>
      dsimp only [resolvedInfo, Option.isSome, discoverStep]
      rw [if_neg (by simp)]
      exact ih m
    | serviceFound ty fn =>
      dsimp only [resolvedInfo, Option.isSome, discoverStep]
      rw [if_neg (by simp)]
      exact ih m
    | serviceRemoved ty fn =>
      dsimp only [resolvedInfo, Option.isSome, discoverStep]
      rw [if_neg (by simp)]
      exact ih m
    | searchStopped ty =>
      dsimp only [resolvedInfo, Option.isSome, discoverStep]
      rw [if_neg (by simp)]
      exact ih m

/-- Claim C9: the receive loop stops at the first gap exceeding the budget
(events after it are never consumed), every event arriving within the
budget of the previous receive is consumed — the timer resets on each
receive, it is not a wall-clock deadline from the start — and non-resolved
event kinds have no effect on the result set. -/
theorem discover_wleds_timeout_and_ignores :
    (∀ (budget : Nat) (pre post : List (Nat × ServiceEvent)) (g : Nat) (e : ServiceEvent),
        (∀ p ∈ pre, p.1 ≤ budget) → budget < g →
        discover_wleds budget (pre ++ (g, e) :: post) = discover_wleds budget pre) ∧
      (∀ (budget : Nat) (stream : List (Nat × ServiceEvent)),
        (∀ p ∈ stream, p.1 ≤ budget) →
        receivedEvents budget stream = stream.map Prod.snd) ∧
      (∀ (budget : Nat) (stream : List (Nat × ServiceEvent)),
        discover_wleds budget stream =
          ((((receivedEvents budget stream).filter
            (fun ev => (resolvedInfo ev).isSome)).foldl discoverStep []).map Prod.snd)) := by
  refine ⟨?_, ?_, ?_⟩
  · intro budget pre post g e hpre hg
    unfold discover_wleds
    rw [receivedEvents_cutoff budget pre post g e hpre hg]
  · exact receivedEvents_all
  · intro budget stream
    unfold discover_wleds
    rw [foldl_discoverStep_filterResolved]

theorem discover_wleds_timeout_and_ignores_witness :
    discover_wleds 4 (c9pre ++ (9, .serviceResolved c9late) ::
        [(1, .serviceResolved c9late)]) = discover_wleds 4 c9pre ∧
      receivedEvents 4 c9pre = c9pre.map Prod.snd ∧
      discover_wleds 4 c9pre =
        (((receivedEvents 4 c9pre).filter
          (fun ev => (resolvedInfo ev).isSome)).foldl discoverStep []).map Prod.snd :=
  ⟨discover_wleds_timeout_and_ignores.1 4 c9pre [(1, .serviceResolved c9late)] 9
      (.serviceResolved c9late) (by decide) (by decide),
    discover_wleds_timeout_and_ignores.2.1 4 c9pre (by decide),
    discover_wleds_timeout_and_ignores.2.2 4 c9pre⟩
